import Mathlib

/-!
Verification development for the collector charm repository.

The repository is a Juju-style charm (src/charm/src/charm.py together with
the refactored helper modules config.py, file_manager.py, github_client.py)
that manages a "collector" workload: it validates operator configuration,
fetches a tagged artifact from GitHub, renders an environment file and
systemd unit files, and drives the service through systemctl.

We give a shallow embedding of the orchestration logic.  Handlers are
modelled as state-passing functions over a state carrying the list of
performed external effects, the history of statuses set, and the current
status.  Fallible external operations (file writes, git, pip, checked
systemctl invocations) are driven by boolean oracles in an `Env` record;
a Python call `run([...], check=True)` raises on failure (modelled by an
exception outcome), while a bare `run([...])` ignores the exit code
(modelled by recording the effect with its success flag and continuing).
Python early `return` and exception propagation are modelled by an
`Exit` outcome threaded through the sequencing combinator.
-/

/-- Observable unit status, mirroring ops.MaintenanceStatus,
ops.ActiveStatus and ops.BlockedStatus with their message. -/
inductive Status where
  | maintenance (msg : String)
  | active (msg : String)
  | blocked (msg : String)
deriving DecidableEq, Repr

/-- The configuration snapshot built by CollectorCharm.`_get_config`.
`frequency` is an integer (the charm defaults it to 60); the remaining
fields are `model.config.get(...)` results, which are None when unset,
modelled as `Option String`. -/
structure Config where
  frequency : Int
  collector_name : Option String
  haproxy_name : Option String
  haproxy_url : Option String
  haproxy_username : Option String
  haproxy_password : Option String
  github_repo : Option String
  github_token : Option String
  release_tag : Option String
  sub_directory : Option String
deriving DecidableEq, Repr

/-- External side effects performed by the handlers, in order.
systemctl invocations carry the verb, the unit name and whether the
underlying operation succeeded (bare `run` ignores this flag; checked
`run(..., check=True)` raises when it is false, after the attempt). -/
inductive Eff where
  | storeConfig (c : Config)
  | genEnvFile (c : Config)
  | aptInstall (pkg : String) (ok : Bool)
  | pipInstall
  | writeServiceUnit (entrypoint : String)
  | writeTimerUnit (interval : Int)
  | daemonReload
  | sysctl (verb : String) (unitName : String) (ok : Bool)
  | rmRf (path : String)
  | gitClone (url : String) (tag : String) (dest : String)
  | sparseSet (dir : String)
  | makeDirs (path : String)
  | copyR (src : String) (dst : String)
  | setWorkloadVersion (v : Option String)
deriving DecidableEq, Repr

/-- Handler termination other than falling off the end: a Python
`return` statement, or an uncaught exception carrying its message. -/
inductive Exit where
  | ret
  | exn (msg : String)
deriving DecidableEq, Repr

/-- Handler state: effects performed so far, history of statuses set,
and the current unit status. -/
structure St where
  effs : List Eff
  hist : List Status
  status : Status
deriving DecidableEq, Repr

/-- A handler computation: state in, outcome and state out. -/
def M (α : Type) : Type := St → Except Exit α × St

/-- Do nothing. -/
def mok : M Unit := fun st => (Except.ok (), st)

/-- Raise a Python exception with the given message. -/
def mthrow (e : String) : M Unit := fun st => (Except.error (Exit.exn e), st)

/-- A Python `return` from the handler. -/
def mret : M Unit := fun st => (Except.error Exit.ret, st)

/-- Assign self.model.unit.status. -/
def setStatus (s : Status) : M Unit := fun st =>
  (Except.ok (), { st with hist := st.hist ++ [s], status := s })

/-- Record a performed external effect. -/
def emit (e : Eff) : M Unit := fun st =>
  (Except.ok (), { st with effs := st.effs ++ [e] })

/-- Sequencing: a `return` or an exception short-circuits. -/
def seq (a b : M Unit) : M Unit := fun st =>
  match a st with
  | (Except.ok _, st2) => b st2
  | (r, st2) => (r, st2)

/-- A try/except block: catches exceptions, not `return`. -/
def catchExn (body : M Unit) (handler : String → M Unit) : M Unit := fun st =>
  match body st with
  | (Except.error (Exit.exn e), st2) => handler e st2
  | r => r

/-- A checked external call (`run(..., check=True)`, or a file open):
on success the effect is recorded, on failure an exception is raised. -/
def actC (ok : Bool) (e : Eff) (failMsg : String) : M Unit :=
  bif ok then emit e else mthrow failMsg

/-- An unchecked external call (`run([...])` without check): the command
runs and its exit code is ignored, so the effect is always recorded and
no exception is raised. -/
def actU (e : Eff) : M Unit := emit e

/-- Success/failure oracles for the external world, one per kind of
fallible operation the handlers perform. -/
structure Env where
  storeOk : Bool
  envFileOk : Bool
  unitFileOk : Bool
  aptOk : Bool
  pipOk : Bool
  rmOk : Bool
  gitOk : Bool
  sparseOk : Bool
  cpOk : Bool
  daemonReloadOk : Bool
  sysStartOk : Bool
  sysStopOk : Bool
  sysRestartOk : Bool
deriving DecidableEq, Repr

/-- Python truthiness of an optional string: None and the empty string
are falsy. -/
def pyFalsy : Option String → Bool
  | none => true
  | some s => s == ""

/-- Python f-string rendering of an optional value: None prints as
the four characters None. -/
def pyStr : Option String → String
  | none => "None"
  | some s => s

/-- Python str.startswith, implemented on the character lists. -/
def pyStartsWith (s p : String) : Bool := p.data.isPrefixOf s.data

def msg_frequency : String :=
  "The \x27frequency\x27 configuration option is required."
def msg_collector_name : String :=
  "The \x27collector-name\x27 configuration option is required."
def msg_haproxy_name : String :=
  "The \x27haproxy-name\x27 configuration option is required."
def msg_haproxy_url_req : String :=
  "The \x27haproxy-url\x27 configuration option is required."
def msg_haproxy_url_fmt : String :=
  "The \x27haproxy-url\x27 must be a valid URL starting with \x27http\x27 or \x27https\x27."
def msg_haproxy_username : String :=
  "The \x27haproxy-username\x27 configuration option is required."
def msg_haproxy_password : String :=
  "The \x27haproxy-password\x27 configuration option is required."
def msg_github_repo : String :=
  "The \x27github-repo\x27 configuration option is required."
def msg_github_repo_fmt : String :=
  "The \x27github-repo\x27 must be a valid HTTPS URL."
def msg_github_token : String :=
  "The \x27github-token\x27 configuration option is required."
def msg_release_tag : String :=
  "The \x27release-tag\x27 configuration option is required."

/-- CollectorCharm.`_validate_config` (src/charm/src/charm.py, lines
155-178): an if-chain raising ValueError at the first violated check.
Note the two URL-format checks are interleaved with the presence
checks, directly after the presence check of the same field. -/
def validate_config (c : Config) : Except String Unit :=
  bif c.frequency == 0 then Except.error msg_frequency
  else bif pyFalsy c.collector_name then Except.error msg_collector_name
  else bif pyFalsy c.haproxy_name then Except.error msg_haproxy_name
  else bif pyFalsy c.haproxy_url then Except.error msg_haproxy_url_req
  else bif !pyStartsWith (c.haproxy_url.getD "") "http" then Except.error msg_haproxy_url_fmt
  else bif pyFalsy c.haproxy_username then Except.error msg_haproxy_username
  else bif pyFalsy c.haproxy_password then Except.error msg_haproxy_password
  else bif pyFalsy c.github_repo then Except.error msg_github_repo
  else bif !pyStartsWith (c.github_repo.getD "") "https://" then Except.error msg_github_repo_fmt
  else bif pyFalsy c.github_token then Except.error msg_github_token
  else bif pyFalsy c.release_tag then Except.error msg_release_tag
  else Except.ok ()

namespace ConfigValidator

/-- ConfigValidator.validate_config (src/charm/src/config.py, lines
17-47): first the nine presence checks in list order, then the two
URL-format checks. -/
def validate_config (c : Config) : Except String Unit :=
  bif c.frequency == 0 then Except.error msg_frequency
  else bif pyFalsy c.collector_name then Except.error msg_collector_name
  else bif pyFalsy c.haproxy_name then Except.error msg_haproxy_name
  else bif pyFalsy c.haproxy_url then Except.error msg_haproxy_url_req
  else bif pyFalsy c.haproxy_username then Except.error msg_haproxy_username
  else bif pyFalsy c.haproxy_password then Except.error msg_haproxy_password
  else bif pyFalsy c.github_repo then Except.error msg_github_repo
  else bif pyFalsy c.github_token then Except.error msg_github_token
  else bif pyFalsy c.release_tag then Except.error msg_release_tag
  else bif !pyStartsWith (c.haproxy_url.getD "") "http" then Except.error msg_haproxy_url_fmt
  else bif !pyStartsWith (c.github_repo.getD "") "https://" then Except.error msg_github_repo_fmt
  else Except.ok ()

end ConfigValidator

/-- A single validation rule: when does it fail, and with which message. -/
structure Rule where
  fails : Config → Bool
  msg : String

/-- Interpretation of an ordered rule list: the first failing rule wins
and its message is returned verbatim; if no rule fails, Ok. -/
def firstViolation : List Rule → Config → Except String Unit
  | [], _ => Except.ok ()
  | r :: rs, c => bif r.fails c then Except.error r.msg else firstViolation rs c

def ruleFrequency : Rule := ⟨fun c => c.frequency == 0, msg_frequency⟩
def ruleCollectorName : Rule := ⟨fun c => pyFalsy c.collector_name, msg_collector_name⟩
def ruleHaproxyName : Rule := ⟨fun c => pyFalsy c.haproxy_name, msg_haproxy_name⟩
def ruleHaproxyUrlReq : Rule := ⟨fun c => pyFalsy c.haproxy_url, msg_haproxy_url_req⟩
def ruleHaproxyUrlFmt : Rule :=
  ⟨fun c => !pyStartsWith (c.haproxy_url.getD "") "http", msg_haproxy_url_fmt⟩
def ruleHaproxyUsername : Rule := ⟨fun c => pyFalsy c.haproxy_username, msg_haproxy_username⟩
def ruleHaproxyPassword : Rule := ⟨fun c => pyFalsy c.haproxy_password, msg_haproxy_password⟩
def ruleGithubRepo : Rule := ⟨fun c => pyFalsy c.github_repo, msg_github_repo⟩
def ruleGithubRepoFmt : Rule :=
  ⟨fun c => !pyStartsWith (c.github_repo.getD "") "https://", msg_github_repo_fmt⟩
def ruleGithubToken : Rule := ⟨fun c => pyFalsy c.github_token, msg_github_token⟩
def ruleReleaseTag : Rule := ⟨fun c => pyFalsy c.release_tag, msg_release_tag⟩

/-- The rule order actually implemented by charm.py
`_validate_config`: format checks interleaved with presence checks. -/
def charmRuleOrder : List Rule :=
  [ruleFrequency, ruleCollectorName, ruleHaproxyName, ruleHaproxyUrlReq,
   ruleHaproxyUrlFmt, ruleHaproxyUsername, ruleHaproxyPassword,
   ruleGithubRepo, ruleGithubRepoFmt, ruleGithubToken, ruleReleaseTag]

/-- Modelled from the spec wording of the validation contract: all nine
presence checks first, then the haproxy_url format check, then the
github_repo format check.  This is also the order implemented by
ConfigValidator.validate_config in config.py. -/
def specRuleOrder : List Rule :=
  [ruleFrequency, ruleCollectorName, ruleHaproxyName, ruleHaproxyUrlReq,
   ruleHaproxyUsername, ruleHaproxyPassword, ruleGithubRepo,
   ruleGithubToken, ruleReleaseTag, ruleHaproxyUrlFmt, ruleGithubRepoFmt]

/-- The per-field delta of CollectorCharm.`_on_config_changed` (line
126): the list of field names whose value differs between the stored
snapshot and the new one, in the key order of `_get_config`.  The
stored snapshot read from the config file is modelled as the already
parsed first argument. -/
def changedFields (old newc : Config) : List String :=
  (if old.frequency = newc.frequency then [] else ["frequency"]) ++
  (if old.collector_name = newc.collector_name then [] else ["collector_name"]) ++
  (if old.haproxy_name = newc.haproxy_name then [] else ["haproxy_name"]) ++
  (if old.haproxy_url = newc.haproxy_url then [] else ["haproxy_url"]) ++
  (if old.haproxy_username = newc.haproxy_username then [] else ["haproxy_username"]) ++
  (if old.haproxy_password = newc.haproxy_password then [] else ["haproxy_password"]) ++
  (if old.github_repo = newc.github_repo then [] else ["github_repo"]) ++
  (if old.github_token = newc.github_token then [] else ["github_token"]) ++
  (if old.release_tag = newc.release_tag then [] else ["release_tag"]) ++
  (if old.sub_directory = newc.sub_directory then [] else ["sub_directory"])

def clone_dir : String := "/tmp/collector-repo"
def dest_dir : String := "/opt/collector"

/-- Python str.split(sep, 1) on character lists: the part before the
first occurrence of sep and the part after it, or none when sep does
not occur. -/
def splitFirst (sep : List Char) : List Char → Option (List Char × List Char)
  | [] => if sep.isPrefixOf [] then some ([], []) else none
  | c :: cs =>
    if sep.isPrefixOf (c :: cs) then some ([], (c :: cs).drop sep.length)
    else (splitFirst sep cs).map fun p => (c :: p.1, p.2)

/-- repo_url.split(https-scheme, 1)[1]: the part of the URL after the
first occurrence of the scheme, or none when absent (in Python the [1]
index then raises IndexError). -/
def repoTail (repo : String) : Option String :=
  (splitFirst ("https://".data) repo.data).map fun p => String.mk p.2

/-- CollectorCharm.`_fetch_collector` (charm.py lines 292-324), which is
line for line the body of GitHubClient.fetch_collector
(src/charm/src/github_client.py lines 18-58): embed the token in the
URL, remove the scratch clone, shallow sparse clone of the tag,
optionally narrow the sparse checkout to the sub-directory, remove the
destination, recreate it, and copy `clone_dir/{subdir}/.` into it.
A None sub_directory renders as the literal text None inside the copy
source path, exactly as the Python f-string does. -/
def fetch_collector (env : Env) (c : Config) : M Unit :=
  match c.github_repo with
  | none => mthrow "AttributeError: NoneType object has no attribute split"
  | some repo =>
    match repoTail repo with
    | none => mthrow "IndexError: list index out of range"
    | some parts =>
      seq (actC env.rmOk (Eff.rmRf clone_dir) "rm -rf clone failed")
      (seq (actC env.gitOk
             (Eff.gitClone ("https://oauth2:" ++ pyStr c.github_token ++ "@" ++ parts)
               (pyStr c.release_tag) clone_dir)
             "git clone failed")
       (seq (bif pyFalsy c.sub_directory then mok
             else actC env.sparseOk (Eff.sparseSet (pyStr c.sub_directory))
                    "git sparse-checkout failed")
        (seq (actC env.rmOk (Eff.rmRf dest_dir) "rm -rf dest failed")
         (seq (emit (Eff.makeDirs dest_dir))
          (actC env.cpOk
            (Eff.copyR (clone_dir ++ "/" ++ pyStr c.sub_directory ++ "/.") dest_dir)
            "cp failed")))))

/-- CollectorCharm.`_on_service_start` (charm.py lines 195-205): four
checked systemctl calls with no try/except around them. -/
def on_service_start (env : Env) : M Unit :=
  seq (setStatus (Status.maintenance "Starting servcice..."))
  (seq (actC env.sysStartOk (Eff.sysctl "start" "collector.service" env.sysStartOk)
         "systemctl start collector.service failed")
   (seq (actC env.sysStartOk (Eff.sysctl "enable" "collector.service" env.sysStartOk)
          "systemctl enable collector.service failed")
    (seq (actC env.sysStartOk (Eff.sysctl "start" "collector.timer" env.sysStartOk)
           "systemctl start collector.timer failed")
     (seq (actC env.sysStartOk (Eff.sysctl "enable" "collector.timer" env.sysStartOk)
            "systemctl enable collector.timer failed")
      (setStatus (Status.active "Running"))))))

/-- CollectorCharm.`_on_service_stop` (charm.py lines 207-217): four
unchecked systemctl calls (exit codes ignored), then unconditionally
BlockedStatus with the text Stopped. -/
def on_service_stop (env : Env) : M Unit :=
  seq (setStatus (Status.maintenance "Stoping servcice..."))
  (seq (actU (Eff.sysctl "stop" "collector.service" env.sysStopOk))
   (seq (actU (Eff.sysctl "disable" "collector.service" env.sysStopOk))
    (seq (actU (Eff.sysctl "stop" "collector.timer" env.sysStopOk))
     (seq (actU (Eff.sysctl "disable" "collector.timer" env.sysStopOk))
      (setStatus (Status.blocked "Stopped"))))))

/-- CollectorCharm.`_on_service_restart` (charm.py lines 219-232):
daemon-reload plus four checked systemctl calls, no try/except. -/
def on_service_restart (env : Env) : M Unit :=
  seq (setStatus (Status.maintenance "Restarting servcice..."))
  (seq (actC env.daemonReloadOk Eff.daemonReload "systemctl daemon-reload failed")
   (seq (actC env.sysRestartOk (Eff.sysctl "restart" "collector.service" env.sysRestartOk)
          "systemctl restart collector.service failed")
    (seq (actC env.sysRestartOk (Eff.sysctl "enable" "collector.service" env.sysRestartOk)
           "systemctl enable collector.service failed")
     (seq (actC env.sysRestartOk (Eff.sysctl "restart" "collector.timer" env.sysRestartOk)
            "systemctl restart collector.timer failed")
      (seq (actC env.sysRestartOk (Eff.sysctl "enable" "collector.timer" env.sysRestartOk)
             "systemctl enable collector.timer failed")
       (setStatus (Status.active "Running")))))))

/-- CollectorCharm.`_on_install` (charm.py lines 67-100).  The first
try/except catches only the ValueError raised by `_validate_config`,
so it is modelled by a direct match; store and environment-file
generation are outside any try/except; the dependency block uses two
unchecked apt invocations whose exit codes `run` ignores, so nothing
in that block raises and ActiveStatus is reached whenever store and
environment generation succeed. -/
def on_install (env : Env) (c : Config) : M Unit :=
  seq (seq (setStatus (Status.maintenance "Validating configuration..."))
       (match validate_config c with
        | Except.ok _ => setStatus (Status.maintenance "Configuration validated successfully.")
        | Except.error e =>
          seq (setStatus (Status.blocked ("Configuration error: " ++ e))) mret))
  (seq (actC env.storeOk (Eff.storeConfig c) "store failed")
   (seq (actC env.envFileOk (Eff.genEnvFile c) "environment file write failed")
    (catchExn
      (seq (setStatus (Status.maintenance "Installing dependencies..."))
       (seq (actU (Eff.aptInstall "python3-pip" env.aptOk))
        (seq (actU (Eff.aptInstall "python-is-python3" env.aptOk))
         (setStatus (Status.active "Running")))))
      (fun e =>
        seq (setStatus (Status.blocked ("Dependency installation failed: " ++ e))) mret))))

/-- CollectorCharm.`_on_config_changed` (charm.py lines 103-153).  The
stored snapshot read by `_read_config` is the `old` parameter. -/
def on_config_changed (env : Env) (old newc : Config) : M Unit :=
  seq (setStatus (Status.maintenance "Updating configuration..."))
  (seq (match validate_config newc with
        | Except.ok _ => mok
        | Except.error e =>
          seq (setStatus (Status.blocked ("Configuration error: " ++ e))) mret)
   (bif (changedFields old newc).isEmpty then
      setStatus (Status.active "Running")
    else
      seq (actC env.storeOk (Eff.storeConfig newc) "store failed")
      (seq (bif (changedFields old newc).contains "release_tag"
               || (changedFields old newc).contains "github_repo"
               || (changedFields old newc).contains "sub_directory" then
              catchExn
                (seq (fetch_collector env newc)
                     (emit (Eff.setWorkloadVersion newc.release_tag)))
                (fun e =>
                  seq (setStatus (Status.blocked ("Failed to fetch collector: " ++ e))) mret)
            else mok)
       (seq (bif (changedFields old newc).contains "haproxy_url"
                || (changedFields old newc).contains "haproxy_username"
                || (changedFields old newc).contains "haproxy_password" then
               actC env.envFileOk (Eff.genEnvFile newc) "environment file write failed"
             else mok)
        (on_service_restart env)))))

/-- CollectorCharm.`_install_dependencies` (charm.py lines 287-290):
unchecked apt, then checked pip. -/
def install_dependencies (env : Env) : M Unit :=
  seq (actU (Eff.aptInstall "python3-pip" env.aptOk))
      (actC env.pipOk Eff.pipInstall "pip3 install failed")

/-- CollectorCharm.`_generate_service_file` (charm.py lines 264-285):
write the service unit, write the timer unit, checked daemon-reload. -/
def generate_service_file (env : Env) (c : Config) : M Unit :=
  seq (actC env.unitFileOk (Eff.writeServiceUnit ("python3 " ++ dest_dir ++ "/main.py"))
        "service file write failed")
  (seq (actC env.unitFileOk (Eff.writeTimerUnit c.frequency) "timer file write failed")
   (actC env.daemonReloadOk Eff.daemonReload "systemctl daemon-reload failed"))

/-- CollectorCharm.`_on_reload` (charm.py lines 326-392).  Only the
dependency-installation step is inside a try/except; validation,
store, fetch, the file renders and the start step all raise uncaught
exceptions on failure. -/
def on_reload (env : Env) (c : Config) : M Unit :=
  seq (setStatus (Status.maintenance "Refreshing collector service..."))
  (seq (setStatus (Status.maintenance "Validating configuration..."))
   (seq (match validate_config c with
         | Except.ok _ => mok
         | Except.error e => mthrow e)
    (seq (setStatus (Status.maintenance "Storing configuration..."))
     (seq (actC env.storeOk (Eff.storeConfig c) "store failed")
      (seq (on_service_stop env)
       (seq (setStatus (Status.maintenance "Fetching collector from GitHub..."))
        (seq (fetch_collector env c)
         (seq (setStatus (Status.maintenance "Installing dependencies..."))
          (seq (catchExn (install_dependencies env)
                 (fun e =>
                   seq (setStatus (Status.blocked ("Dependency installation failed: " ++ e)))
                       mret))
           (seq (setStatus (Status.maintenance "Generating environment file..."))
            (seq (actC env.envFileOk (Eff.genEnvFile c) "environment file write failed")
             (seq (setStatus (Status.maintenance "Generating service file..."))
              (seq (generate_service_file env c)
               (seq (emit (Eff.setWorkloadVersion c.release_tag))
                (seq (on_service_start env)
                 (setStatus (Status.active "Running")))))))))))))))))

/-- Initial handler state: no effects yet, status as the framework
left it. -/
def initSt (s0 : Status) : St := { effs := [], hist := [], status := s0 }

/-- Run a handler from a given initial status. -/
def runM (m : M Unit) (s0 : Status) : Except Exit Unit × St := m (initSt s0)

/-- Final state after running a handler. -/
def finalSt (m : M Unit) (s0 : Status) : St := (runM m s0).2

/-- The exception escaping a handler, if any (a Python `return` or a
normal fall-through both yield none). -/
def escaped (m : M Unit) (s0 : Status) : Option String :=
  match (runM m s0).1 with
  | Except.error (Exit.exn e) => some e
  | _ => none

/-- Environment in which every external operation succeeds. -/
def envAllOk : Env :=
  { storeOk := true, envFileOk := true, unitFileOk := true, aptOk := true,
    pipOk := true, rmOk := true, gitOk := true, sparseOk := true, cpOk := true,
    daemonReloadOk := true, sysStartOk := true, sysStopOk := true, sysRestartOk := true }

/-- The concrete snapshot of the specification scenario. -/
def cGood : Config :=
  { frequency := 60, collector_name := some "c1", haproxy_name := some "lb1",
    haproxy_url := some "http://lb.local", haproxy_username := some "u",
    haproxy_password := some "p", github_repo := some "https://github.com/org/repo",
    github_token := some "t", release_tag := some "v1.2.0", sub_directory := some "" }

/-- Split a character list at every occurrence of the given character. -/
def splitOnChar (c : Char) : List Char → List (List Char)
  | [] => [[]]
  | x :: xs =>
    match splitOnChar c xs with
    | [] => if x = c then [[], [x]] else [[x]]
    | y :: ys => if x = c then [] :: y :: ys else (x :: y) :: ys

/-- POSIX-style path resolution for comparing copy sources: split on
slashes and drop empty segments and single-dot segments. -/
def normPath (s : String) : List (List Char) :=
  (splitOnChar '/' s.data).filter fun seg => seg ≠ [] ∧ seg ≠ ['.']

/-- Environment in which git clone fails and everything else succeeds. -/
def envGitFail : Env := { envAllOk with gitOk := false }

/-- Environment in which pip fails and everything else succeeds. -/
def envPipFail : Env := { envAllOk with pipOk := false }

/-- Environment in which the apt commands fail (their exit codes are
ignored by the handlers) and everything else succeeds. -/
def envAptFail : Env := { envAllOk with aptOk := false }

/-- Environment in which the checked systemctl start/enable calls fail. -/
def envStartFail : Env := { envAllOk with sysStartOk := false }

/-- Environment in which the supervisor stop/disable operations fail
(the handler ignores their exit codes). -/
def envStopFail : Env := { envAllOk with sysStopOk := false }

/-- Does an effect perform an artifact fetch (a git clone)? -/
def isClone : Eff → Bool
  | Eff.gitClone _ _ _ => true
  | _ => false

/-- Does an effect belong to a service restart (daemon-reload or a
systemctl restart invocation)? -/
def isRestartEff : Eff → Bool
  | Eff.daemonReload => true
  | Eff.sysctl v _ _ => v == "restart"
  | _ => false

/-- Does an effect render the environment file? -/
def isEnvRender : Eff → Bool
  | Eff.genEnvFile _ => true
  | _ => false

/-- The stored snapshot of the specification scenario with an older
release tag: differs from cGood only in release_tag. -/
def cOldTag : Config := { cGood with release_tag := some "v1.1.0" }

/-- A stored snapshot differing from cGood only in frequency. -/
def cOldFreq : Config := { cGood with frequency := 30 }

/-- A snapshot with a missing haproxy_username and a malformed
haproxy_url: both a presence rule and a format rule are violated. -/
def cMix : Config := { cGood with haproxy_username := none, haproxy_url := some "ftp://x" }

/-- A snapshot with a negative frequency, all other fields well formed. -/
def cNeg : Config := { cGood with frequency := -1 }

/-- A well-formed snapshot whose sub_directory is unset (None). -/
def cNoSub : Config := { cGood with sub_directory := none }

/-- A snapshot with frequency 0, which Python truthiness rejects. -/
def cBadFreq : Config := { cGood with frequency := 0 }

/-- A snapshot whose collector_name is the empty string. -/
def cEmptyName : Config := { cGood with collector_name := some "" }

/-- The snapshot is missing at least one required field (None, empty
string, or frequency 0 under Python truthiness). -/
def requiredMissing (c : Config) : Prop :=
  c.frequency = 0 ∨ pyFalsy c.collector_name = true ∨ pyFalsy c.haproxy_name = true ∨
  pyFalsy c.haproxy_url = true ∨ pyFalsy c.haproxy_username = true ∨
  pyFalsy c.haproxy_password = true ∨ pyFalsy c.github_repo = true ∨
  pyFalsy c.github_token = true ∨ pyFalsy c.release_tag = true

/-- The error message corresponds to a validation rule that the
snapshot really violates. -/
def violatedBy (c : Config) (e : String) : Prop :=
  (e = msg_frequency ∧ c.frequency = 0) ∨
  (e = msg_collector_name ∧ pyFalsy c.collector_name = true) ∨
  (e = msg_haproxy_name ∧ pyFalsy c.haproxy_name = true) ∨
  (e = msg_haproxy_url_req ∧ pyFalsy c.haproxy_url = true) ∨
  (e = msg_haproxy_url_fmt ∧ pyStartsWith (c.haproxy_url.getD "") "http" = false) ∨
  (e = msg_haproxy_username ∧ pyFalsy c.haproxy_username = true) ∨
  (e = msg_haproxy_password ∧ pyFalsy c.haproxy_password = true) ∨
  (e = msg_github_repo ∧ pyFalsy c.github_repo = true) ∨
  (e = msg_github_repo_fmt ∧ pyStartsWith (c.github_repo.getD "") "https://" = false) ∨
  (e = msg_github_token ∧ pyFalsy c.github_token = true) ∨
  (e = msg_release_tag ∧ pyFalsy c.release_tag = true)

/-- Acceptance characterization of the charm validator: Ok exactly when
every required field is truthy and both URL prefixes hold. -/
theorem validate_config_ok_iff (c : Config) : validate_config c = Except.ok () ↔
    (c.frequency ≠ 0 ∧ pyFalsy c.collector_name = false ∧ pyFalsy c.haproxy_name = false ∧
     pyFalsy c.haproxy_url = false ∧ pyStartsWith (c.haproxy_url.getD "") "http" = true ∧
     pyFalsy c.haproxy_username = false ∧ pyFalsy c.haproxy_password = false ∧
     pyFalsy c.github_repo = false ∧ pyStartsWith (c.github_repo.getD "") "https://" = true ∧
     pyFalsy c.github_token = false ∧ pyFalsy c.release_tag = false) := by
  unfold validate_config
  cases h1 : (c.frequency == 0) <;> simp_all [beq_iff_eq]
  cases h2 : pyFalsy c.collector_name <;> simp_all
  cases h3 : pyFalsy c.haproxy_name <;> simp_all
  cases h4 : pyFalsy c.haproxy_url <;> simp_all
  cases h5 : pyStartsWith (c.haproxy_url.getD "") "http" <;> simp_all
  cases h6 : pyFalsy c.haproxy_username <;> simp_all
  cases h7 : pyFalsy c.haproxy_password <;> simp_all
  cases h8 : pyFalsy c.github_repo <;> simp_all
  cases h9 : pyStartsWith (c.github_repo.getD "") "https://" <;> simp_all
  cases h10 : pyFalsy c.github_token <;> simp_all
  cases h11 : pyFalsy c.release_tag <;> simp_all

/-- Acceptance characterization of ConfigValidator.validate_config:
it accepts exactly the same snapshots as the charm validator. -/
theorem configValidator_ok_iff (c : Config) :
    ConfigValidator.validate_config c = Except.ok () ↔
    (c.frequency ≠ 0 ∧ pyFalsy c.collector_name = false ∧ pyFalsy c.haproxy_name = false ∧
     pyFalsy c.haproxy_url = false ∧ pyStartsWith (c.haproxy_url.getD "") "http" = true ∧
     pyFalsy c.haproxy_username = false ∧ pyFalsy c.haproxy_password = false ∧
     pyFalsy c.github_repo = false ∧ pyStartsWith (c.github_repo.getD "") "https://" = true ∧
     pyFalsy c.github_token = false ∧ pyFalsy c.release_tag = false) := by
  unfold ConfigValidator.validate_config
  cases h1 : (c.frequency == 0) <;> simp_all [beq_iff_eq]
  cases h2 : pyFalsy c.collector_name <;> simp_all
  cases h3 : pyFalsy c.haproxy_name <;> simp_all
  cases h4 : pyFalsy c.haproxy_url <;> simp_all
  cases h5 : pyFalsy c.haproxy_username <;> simp_all
  cases h6 : pyFalsy c.haproxy_password <;> simp_all
  cases h7 : pyFalsy c.github_repo <;> simp_all
  cases h8 : pyFalsy c.github_token <;> simp_all
  cases h9 : pyFalsy c.release_tag <;> simp_all
  cases h10 : pyStartsWith (c.haproxy_url.getD "") "http" <;> simp_all
  cases h11 : pyStartsWith (c.github_repo.getD "") "https://" <;> simp_all

/-- Any error returned by the charm validator corresponds to a rule the
snapshot really violates. -/
theorem validate_error_violated (c : Config) (e : String)
    (h : validate_config c = Except.error e) : violatedBy c e := by
  unfold validate_config at h
  cases h1 : (c.frequency == 0) <;> simp_all [violatedBy, beq_iff_eq]
  cases h2 : pyFalsy c.collector_name <;> simp_all
  cases h3 : pyFalsy c.haproxy_name <;> simp_all
  cases h4 : pyFalsy c.haproxy_url <;> simp_all
  cases h5 : pyStartsWith (c.haproxy_url.getD "") "http" <;> simp_all
  cases h6 : pyFalsy c.haproxy_username <;> simp_all
  cases h7 : pyFalsy c.haproxy_password <;> simp_all
  cases h8 : pyFalsy c.github_repo <;> simp_all
  cases h9 : pyStartsWith (c.github_repo.getD "") "https://" <;> simp_all
  cases h10 : pyFalsy c.github_token <;> simp_all
  cases h11 : pyFalsy c.release_tag <;> simp_all

/-- A snapshot missing a required field is rejected by the charm
validator, with a message matching a violated rule. -/
theorem validate_error_of_missing (c : Config) (hm : requiredMissing c) :
    ∃ e, validate_config c = Except.error e ∧ violatedBy c e := by
  match hv : validate_config c with
  | Except.error e => exact ⟨e, rfl, validate_error_violated c e hv⟩
  | Except.ok u =>
    cases u
    have h2 := (validate_config_ok_iff c).mp hv
    rcases hm with h | h | h | h | h | h | h | h | h <;> simp_all

/-- An unchanged snapshot yields an empty delta. -/
theorem changedFields_self (c : Config) : changedFields c c = [] := by
  simp [changedFields]

/-- Shared reduction: Install on an invalid snapshot blocks with the
validation message, performs nothing, and raises nothing. -/
theorem install_invalid (env : Env) (c : Config) (s0 : Status) (e : String)
    (h : validate_config c = Except.error e) :
    escaped (on_install env c) s0 = none ∧
    (finalSt (on_install env c) s0).status = Status.blocked ("Configuration error: " ++ e) ∧
    (finalSt (on_install env c) s0).effs = [] := by
  refine ⟨?_, ?_, ?_⟩ <;>
    simp [escaped, finalSt, runM, on_install, h, seq, setStatus, mret, initSt, catchExn,
      actC, actU, emit, mthrow, mok]

/-- Shared reduction: ConfigurationChanged on an invalid snapshot blocks
with the validation message, performs nothing, and raises nothing. -/
theorem config_changed_invalid (env : Env) (old c : Config) (s0 : Status) (e : String)
    (h : validate_config c = Except.error e) :
    escaped (on_config_changed env old c) s0 = none ∧
    (finalSt (on_config_changed env old c) s0).status =
      Status.blocked ("Configuration error: " ++ e) ∧
    (finalSt (on_config_changed env old c) s0).effs = [] := by
  refine ⟨?_, ?_, ?_⟩ <;>
    simp [escaped, finalSt, runM, on_config_changed, h, seq, setStatus, mret, initSt,
      catchExn, actC, actU, emit, mthrow, mok]

/-- Shared reduction: Reload on an invalid snapshot lets the ValueError
escape, leaves the Maintenance status, and performs nothing. -/
theorem reload_invalid (env : Env) (c : Config) (s0 : Status) (e : String)
    (h : validate_config c = Except.error e) :
    escaped (on_reload env c) s0 = some e ∧
    (finalSt (on_reload env c) s0).status = Status.maintenance "Validating configuration..." ∧
    (finalSt (on_reload env c) s0).effs = [] := by
  refine ⟨?_, ?_, ?_⟩ <;>
    simp [escaped, finalSt, runM, on_reload, h, seq, setStatus, mret, initSt,
      catchExn, actC, actU, emit, mthrow, mok]

/-- C1 counterexample: the claim fails on the code at concrete inputs.
With apt failing (exit code ignored), Install finishes Active although
a dependency step failed; with systemctl start failing, the Start
handler lets the error escape and leaves a Maintenance status rather
than setting Blocked. -/
theorem C1_counterexample :
    Eff.aptInstall "python3-pip" false ∈
      (finalSt (on_install envAptFail cGood) (Status.active "prior")).effs ∧
    (finalSt (on_install envAptFail cGood) (Status.active "prior")).status =
      Status.active "Running" ∧
    escaped (on_service_start envStartFail) (Status.active "prior") =
      some "systemctl start collector.service failed" ∧
    (finalSt (on_service_start envStartFail) (Status.active "prior")).status =
      Status.maintenance "Starting servcice..." := by
  refine ⟨?_, rfl, rfl, rfl⟩
  decide

/-- C1 amended: only validation failures in Install and
ConfigurationChanged, fetch failures in ConfigurationChanged, and pip
failures in the Reload dependency step are caught and turned into a
Blocked status; a failing checked supervisor call in Start raises out
of the handler, Reload propagates validation errors, and Install ends
Active even when the apt dependency commands fail, because their exit
codes are ignored. -/
theorem C1_amended (env : Env) (old c : Config) (s0 : Status) (e repo parts : String) :
    (validate_config c = Except.error e →
      escaped (on_install env c) s0 = none ∧
      (finalSt (on_install env c) s0).status = Status.blocked ("Configuration error: " ++ e) ∧
      (finalSt (on_install env c) s0).effs = [] ∧
      escaped (on_config_changed env old c) s0 = none ∧
      (finalSt (on_config_changed env old c) s0).status =
        Status.blocked ("Configuration error: " ++ e) ∧
      (finalSt (on_config_changed env old c) s0).effs = [] ∧
      escaped (on_reload env c) s0 = some e) ∧
    (env.sysStartOk = false → (escaped (on_service_start env) s0).isSome = true) ∧
    (validate_config c = Except.ok () →
      (finalSt (on_install envAptFail c) s0).status = Status.active "Running") ∧
    (validate_config c = Except.ok () → changedFields old c = ["release_tag"] →
      c.github_repo = some repo → repoTail repo = some parts →
      escaped (on_config_changed envGitFail old c) s0 = none ∧
      (finalSt (on_config_changed envGitFail old c) s0).status =
        Status.blocked "Failed to fetch collector: git clone failed") := by
  refine ⟨?_, ?_, ?_, ?_⟩
  · intro h
    obtain ⟨i1, i2, i3⟩ := install_invalid env c s0 e h
    obtain ⟨c1, c2, c3⟩ := config_changed_invalid env old c s0 e h
    exact ⟨i1, i2, i3, c1, c2, c3, (reload_invalid env c s0 e h).1⟩
  · intro h
    simp [escaped, runM, on_service_start, h, seq, setStatus, actC, emit, mthrow, initSt]
  · intro hv
    simp [finalSt, runM, on_install, hv, seq, setStatus, actC, actU, emit, mthrow, mok,
      mret, catchExn, initSt, envAptFail, envAllOk]
  · intro hv hch hrepo hrt
    constructor <;>
      simp [escaped, finalSt, runM, on_config_changed, fetch_collector, hv, hch, hrepo, hrt,
        seq, setStatus, actC, actU, emit, mthrow, mok, mret, catchExn, initSt,
        envGitFail, envAllOk]

/-- C1 amended witness: the implications instantiated at concrete
inputs. -/
theorem C1_amended_witness :
    validate_config cBadFreq = Except.error msg_frequency ∧
    validate_config cGood = Except.ok () ∧
    envStartFail.sysStartOk = false ∧
    (finalSt (on_install envAllOk cBadFreq) (Status.active "prior")).status =
      Status.blocked ("Configuration error: " ++ msg_frequency) ∧
    (escaped (on_service_start envStartFail) (Status.active "prior")).isSome = true ∧
    (finalSt (on_config_changed envGitFail cOldTag cGood) (Status.active "prior")).status =
      Status.blocked "Failed to fetch collector: git clone failed" := by
  refine ⟨rfl, rfl, rfl, ?_, ?_, ?_⟩
  · exact ((C1_amended envAllOk cOldTag cBadFreq (Status.active "prior") msg_frequency
      "r" "p").1 rfl).2.1
  · exact (C1_amended envStartFail cOldTag cGood (Status.active "prior") "e" "r" "p").2.1 rfl
  · exact ((C1_amended envGitFail cOldTag cGood (Status.active "prior") "e"
      "https://github.com/org/repo" "github.com/org/repo").2.2.2 rfl (by decide) rfl
      rfl).2

/-- C2 counterexample: for a snapshot with a missing haproxy_username
and a present but malformed haproxy_url, the claimed order (all
presence checks before any format check) would report the missing
username, but the charm validator used by the handlers reports the
haproxy-url format message instead. -/
theorem C2_counterexample :
    validate_config cMix = Except.error msg_haproxy_url_fmt ∧
    firstViolation specRuleOrder cMix = Except.error msg_haproxy_username ∧
    msg_haproxy_url_fmt ≠ msg_haproxy_username := by
  refine ⟨rfl, rfl, ?_⟩
  decide

/-- C2 amended: validation is first-failure-wins over a fixed ordered
rule list with the message delivered verbatim, but the order of
CollectorCharm validate_config interleaves each URL-format check
directly after the presence check of the same field
(charmRuleOrder); only the module-level
ConfigValidator.validate_config checks all nine presences first and
the two formats afterwards, as the claim states (specRuleOrder). -/
theorem C2_amended (c : Config) :
    validate_config c = firstViolation charmRuleOrder c ∧
    ConfigValidator.validate_config c = firstViolation specRuleOrder c := by
  constructor <;> rfl

/-- C3: for valid snapshots differing only in release_tag,
ConfigurationChanged performs exactly one artifact fetch, the clone
uses the new tag, the new tag is recorded as the workload version and
the handler ends Active; if the fetch fails, the status becomes
Blocked with the fetch reason, nothing escapes, and no restart effect
runs. -/
theorem C3_config_changed_release_tag (old c : Config) (s0 : Status) (repo parts : String)
    (hv : validate_config c = Except.ok ())
    (hch : changedFields old c = ["release_tag"])
    (hrepo : c.github_repo = some repo)
    (hrt : repoTail repo = some parts) :
    ((finalSt (on_config_changed envAllOk old c) s0).effs.filter isClone =
      [Eff.gitClone ("https://oauth2:" ++ pyStr c.github_token ++ "@" ++ parts)
        (pyStr c.release_tag) clone_dir]) ∧
    Eff.setWorkloadVersion c.release_tag ∈ (finalSt (on_config_changed envAllOk old c) s0).effs ∧
    (finalSt (on_config_changed envAllOk old c) s0).status = Status.active "Running" ∧
    escaped (on_config_changed envAllOk old c) s0 = none ∧
    (finalSt (on_config_changed envGitFail old c) s0).status =
      Status.blocked "Failed to fetch collector: git clone failed" ∧
    escaped (on_config_changed envGitFail old c) s0 = none ∧
    (finalSt (on_config_changed envGitFail old c) s0).effs.filter isRestartEff = [] := by
  by_cases hsd : pyFalsy c.sub_directory <;>
  · refine ⟨?_, ?_, ?_, ?_, ?_, ?_, ?_⟩ <;>
      simp [finalSt, escaped, runM, on_config_changed, on_service_restart, fetch_collector,
        hv, hch, hrepo, hrt, hsd, seq, setStatus, emit, mok, mthrow, mret,
        actC, actU, catchExn, initSt, envAllOk, envGitFail, isClone, isRestartEff]

/-- C3 witness: the release-tag-only change scenario at the concrete
specification snapshot. -/
theorem C3_witness :
    validate_config cGood = Except.ok () ∧
    changedFields cOldTag cGood = ["release_tag"] ∧
    ((finalSt (on_config_changed envAllOk cOldTag cGood) (Status.active "prior")).effs.filter
      isClone =
      [Eff.gitClone "https://oauth2:t@github.com/org/repo" "v1.2.0" clone_dir]) ∧
    Eff.setWorkloadVersion (some "v1.2.0") ∈
      (finalSt (on_config_changed envAllOk cOldTag cGood) (Status.active "prior")).effs ∧
    (finalSt (on_config_changed envGitFail cOldTag cGood) (Status.active "prior")).status =
      Status.blocked "Failed to fetch collector: git clone failed" := by
  have h := C3_config_changed_release_tag cOldTag cGood (Status.active "prior")
    "https://github.com/org/repo" "github.com/org/repo" rfl (by decide) rfl rfl
  exact ⟨rfl, by decide, h.1, h.2.1, h.2.2.2.2.1⟩

/-- C4: for valid snapshots differing only in frequency, the handler
stores the new snapshot and restarts the service, with no fetch and no
environment render: the effect trace is exactly the store followed by
the restart effects. -/
theorem C4_config_changed_frequency_only (old c : Config) (s0 : Status)
    (hv : validate_config c = Except.ok ())
    (hch : changedFields old c = ["frequency"]) :
    (finalSt (on_config_changed envAllOk old c) s0).effs =
      [Eff.storeConfig c, Eff.daemonReload,
       Eff.sysctl "restart" "collector.service" true,
       Eff.sysctl "enable" "collector.service" true,
       Eff.sysctl "restart" "collector.timer" true,
       Eff.sysctl "enable" "collector.timer" true] ∧
    (finalSt (on_config_changed envAllOk old c) s0).effs.filter isClone = [] ∧
    (finalSt (on_config_changed envAllOk old c) s0).effs.filter isEnvRender = [] ∧
    (finalSt (on_config_changed envAllOk old c) s0).status = Status.active "Running" ∧
    escaped (on_config_changed envAllOk old c) s0 = none := by
  refine ⟨?_, ?_, ?_, ?_, ?_⟩ <;>
    simp [finalSt, escaped, runM, on_config_changed, on_service_restart,
      hv, hch, seq, setStatus, emit, mok, mthrow, mret, actC, actU, catchExn, initSt,
      envAllOk, isClone, isEnvRender]

/-- C4 witness: the frequency-only change scenario at the concrete
specification snapshot. -/
theorem C4_witness :
    validate_config cGood = Except.ok () ∧
    changedFields cOldFreq cGood = ["frequency"] ∧
    (finalSt (on_config_changed envAllOk cOldFreq cGood) (Status.active "prior")).effs =
      [Eff.storeConfig cGood, Eff.daemonReload,
       Eff.sysctl "restart" "collector.service" true,
       Eff.sysctl "enable" "collector.service" true,
       Eff.sysctl "restart" "collector.timer" true,
       Eff.sysctl "enable" "collector.timer" true] := by
  have h := C4_config_changed_frequency_only cOldFreq cGood (Status.active "prior")
    rfl (by decide)
  exact ⟨rfl, by decide, h.1⟩

/-- C5: a valid snapshot identical to the stored one produces no store,
no fetch, no render, no restart, ends Active, and raises nothing. -/
theorem C5_empty_delta (env : Env) (c : Config) (s0 : Status)
    (hv : validate_config c = Except.ok ()) :
    (finalSt (on_config_changed env c c) s0).effs = [] ∧
    (finalSt (on_config_changed env c c) s0).status = Status.active "Running" ∧
    escaped (on_config_changed env c c) s0 = none := by
  have hch : changedFields c c = [] := changedFields_self c
  refine ⟨?_, ?_, ?_⟩ <;>
    simp [finalSt, escaped, runM, on_config_changed, hv, hch, seq, setStatus, mok, initSt]

/-- C5 witness: the empty-delta scenario at the concrete specification
snapshot. -/
theorem C5_witness :
    validate_config cGood = Except.ok () ∧
    (finalSt (on_config_changed envAllOk cGood cGood) (Status.active "prior")).effs = [] ∧
    (finalSt (on_config_changed envAllOk cGood cGood) (Status.active "prior")).status =
      Status.active "Running" := by
  have h := C5_empty_delta envAllOk cGood (Status.active "prior") rfl
  exact ⟨rfl, h.1, h.2.1⟩

/-- C6 counterexample: Reload on a snapshot with frequency 0 does not
short-circuit to Blocked; the ValueError escapes the handler and the
status is left at the Maintenance phase. -/
theorem C6_counterexample :
    escaped (on_reload envAllOk cBadFreq) (Status.active "prior") = some msg_frequency ∧
    (finalSt (on_reload envAllOk cBadFreq) (Status.active "prior")).status =
      Status.maintenance "Validating configuration..." := by
  exact ⟨rfl, rfl⟩

/-- C6 amended: Reload executes validate, store, stop, fetch, install
dependencies, render environment file, render service units, set
reported version, start, Active, in exactly that order, and completed
steps are not rolled back; but only the dependency-installation step
(its checked pip call) is caught and mapped to Blocked with the
failure reason, aborting the remaining steps, while a validation
failure (and any other checked step failure) raises out of the handler
without setting Blocked. -/
theorem C6_reload_order (c : Config) (s0 : Status) (repo parts e : String) :
    (validate_config c = Except.ok () → c.github_repo = some repo →
      repoTail repo = some parts →
      ((finalSt (on_reload envAllOk c) s0).effs =
        [Eff.storeConfig c,
         Eff.sysctl "stop" "collector.service" true,
         Eff.sysctl "disable" "collector.service" true,
         Eff.sysctl "stop" "collector.timer" true,
         Eff.sysctl "disable" "collector.timer" true,
         Eff.rmRf clone_dir,
         Eff.gitClone ("https://oauth2:" ++ pyStr c.github_token ++ "@" ++ parts)
           (pyStr c.release_tag) clone_dir] ++
        (bif pyFalsy c.sub_directory then [] else [Eff.sparseSet (pyStr c.sub_directory)]) ++
        [Eff.rmRf dest_dir, Eff.makeDirs dest_dir,
         Eff.copyR (clone_dir ++ "/" ++ pyStr c.sub_directory ++ "/.") dest_dir,
         Eff.aptInstall "python3-pip" true, Eff.pipInstall,
         Eff.genEnvFile c,
         Eff.writeServiceUnit ("python3 " ++ dest_dir ++ "/main.py"),
         Eff.writeTimerUnit c.frequency, Eff.daemonReload,
         Eff.setWorkloadVersion c.release_tag,
         Eff.sysctl "start" "collector.service" true,
         Eff.sysctl "enable" "collector.service" true,
         Eff.sysctl "start" "collector.timer" true,
         Eff.sysctl "enable" "collector.timer" true]) ∧
      (finalSt (on_reload envAllOk c) s0).status = Status.active "Running" ∧
      escaped (on_reload envAllOk c) s0 = none ∧
      (finalSt (on_reload envPipFail c) s0).status =
        Status.blocked "Dependency installation failed: pip3 install failed" ∧
      escaped (on_reload envPipFail c) s0 = none ∧
      (finalSt (on_reload envPipFail c) s0).effs.filter isEnvRender = [] ∧
      Eff.storeConfig c ∈ (finalSt (on_reload envPipFail c) s0).effs) ∧
    (validate_config c = Except.error e →
      escaped (on_reload envAllOk c) s0 = some e ∧
      (finalSt (on_reload envAllOk c) s0).status =
        Status.maintenance "Validating configuration..." ∧
      (finalSt (on_reload envAllOk c) s0).effs = []) := by
  refine ⟨?_, fun he => reload_invalid envAllOk c s0 e he⟩
  intro hv hrepo hrt
  by_cases hsd : pyFalsy c.sub_directory <;>
  · refine ⟨?_, ?_, ?_, ?_, ?_, ?_, ?_⟩ <;>
      simp [finalSt, escaped, runM, on_reload, on_service_stop, on_service_start,
        generate_service_file, install_dependencies, fetch_collector,
        hv, hrepo, hrt, hsd, seq, setStatus, emit, mok, mthrow, mret, actC, actU,
        catchExn, initSt, envAllOk, envPipFail, isEnvRender]

/-- C6 amended witness: the Reload scenario at the concrete
specification snapshot, and the validation-failure branch at the
frequency-0 snapshot. -/
theorem C6_witness :
    validate_config cGood = Except.ok () ∧
    validate_config cBadFreq = Except.error msg_frequency ∧
    (finalSt (on_reload envAllOk cGood) (Status.active "prior")).status =
      Status.active "Running" ∧
    (finalSt (on_reload envPipFail cGood) (Status.active "prior")).status =
      Status.blocked "Dependency installation failed: pip3 install failed" ∧
    escaped (on_reload envAllOk cBadFreq) (Status.active "prior") = some msg_frequency := by
  have hA := (C6_reload_order cGood (Status.active "prior")
    "https://github.com/org/repo" "github.com/org/repo" "e").1 rfl rfl rfl
  have hC := (C6_reload_order cBadFreq (Status.active "prior") "r" "p" msg_frequency).2 rfl
  exact ⟨rfl, rfl, hA.2.1, hA.2.2.2.1, hC.1⟩

/-- C7 counterexample: when the supervisor stop operations fail, the
Stop handler still ends Blocked with the text Stopped (not a distinct
failure reason), and the Maintenance phase it set first reads
Stoping servcice rather than stopping. -/
theorem C7_counterexample :
    (finalSt (on_service_stop envStopFail) (Status.active "prior")).status =
      Status.blocked "Stopped" ∧
    Eff.sysctl "stop" "collector.service" false ∈
      (finalSt (on_service_stop envStopFail) (Status.active "prior")).effs ∧
    (finalSt (on_service_stop envStopFail) (Status.active "prior")).hist.head? =
      some (Status.maintenance "Stoping servcice...") := by
  refine ⟨rfl, ?_, rfl⟩
  decide

/-- C7 amended: the Stop handler first sets the Maintenance phase
Stoping servcice, then invokes stop and disable for both units with
their exit codes ignored, and unconditionally sets Blocked with the
text Stopped whether the supervisor operations succeed or fail;
nothing escapes the handler. -/
theorem C7_stop_always_blocked_stopped (env : Env) (s0 : Status) :
    (finalSt (on_service_stop env) s0).effs =
      [Eff.sysctl "stop" "collector.service" env.sysStopOk,
       Eff.sysctl "disable" "collector.service" env.sysStopOk,
       Eff.sysctl "stop" "collector.timer" env.sysStopOk,
       Eff.sysctl "disable" "collector.timer" env.sysStopOk] ∧
    (finalSt (on_service_stop env) s0).hist =
      [Status.maintenance "Stoping servcice...", Status.blocked "Stopped"] ∧
    (finalSt (on_service_stop env) s0).status = Status.blocked "Stopped" ∧
    escaped (on_service_stop env) s0 = none := by
  exact ⟨rfl, rfl, rfl, rfl⟩

/-- C8 counterexample: cMix is a snapshot missing the required
haproxy_username, yet Install blocks with the haproxy-url format
message, which does not name the missing field (the message contains
no occurrence of the text username). -/
theorem C8_counterexample :
    pyFalsy cMix.haproxy_username = true ∧
    (finalSt (on_install envAllOk cMix) (Status.active "prior")).status =
      Status.blocked ("Configuration error: " ++ msg_haproxy_url_fmt) ∧
    splitFirst ("username".data) msg_haproxy_url_fmt.data = none ∧
    (finalSt (on_install envAllOk cMix) (Status.active "prior")).effs = [] := by
  exact ⟨rfl, rfl, by decide, rfl⟩

/-- C8 amended: for every snapshot missing a required field, Install
and ConfigurationChanged fail validation without raising, set Blocked
with the first violated rule message prefixed by Configuration error,
and perform no store, fetch, render or restart side effect; the reason
names the first violated rule, which is a rule the snapshot really
violates but, because the two URL-format checks are interleaved with
the presence checks, need not be the missing field itself. -/
theorem C8_missing_field_blocks (env : Env) (old c : Config) (s0 : Status)
    (hm : requiredMissing c) :
    ∃ e, validate_config c = Except.error e ∧ violatedBy c e ∧
      escaped (on_install env c) s0 = none ∧
      (finalSt (on_install env c) s0).status = Status.blocked ("Configuration error: " ++ e) ∧
      (finalSt (on_install env c) s0).effs = [] ∧
      escaped (on_config_changed env old c) s0 = none ∧
      (finalSt (on_config_changed env old c) s0).status =
        Status.blocked ("Configuration error: " ++ e) ∧
      (finalSt (on_config_changed env old c) s0).effs = [] := by
  obtain ⟨e, he, hvb⟩ := validate_error_of_missing c hm
  obtain ⟨i1, i2, i3⟩ := install_invalid env c s0 e he
  obtain ⟨k1, k2, k3⟩ := config_changed_invalid env old c s0 e he
  exact ⟨e, he, hvb, i1, i2, i3, k1, k2, k3⟩

/-- C8 amended witness: a snapshot with an empty collector_name. -/
theorem C8_witness :
    requiredMissing cEmptyName ∧
    (finalSt (on_install envAllOk cEmptyName) (Status.active "prior")).status =
      Status.blocked ("Configuration error: " ++ msg_collector_name) ∧
    (finalSt (on_install envAllOk cEmptyName) (Status.active "prior")).effs = [] := by
  have hm : requiredMissing cEmptyName := by
    right; left; decide
  obtain ⟨e, he, -, -, h4, h5, -⟩ :=
    C8_missing_field_blocks envAllOk cGood cEmptyName (Status.active "prior") hm
  have h0 : validate_config cEmptyName = Except.error msg_collector_name := rfl
  have he2 : msg_collector_name = e := Except.error.inj (h0.symm.trans he)
  rw [← he2] at h4
  exact ⟨hm, h4, h5⟩

/-- C9 counterexample: for a valid snapshot whose sub_directory is
unset (None), the fetch copy source is the literal path
/tmp/collector-repo/None/., which does not resolve to the clone root:
the fetch does not materialize the repository root. -/
theorem C9_counterexample :
    cNoSub.sub_directory = none ∧
    validate_config cNoSub = Except.ok () ∧
    Eff.copyR "/tmp/collector-repo/None/." dest_dir ∈
      (finalSt (fetch_collector envAllOk cNoSub) (Status.active "prior")).effs ∧
    normPath "/tmp/collector-repo/None/." ≠ normPath clone_dir := by
  refine ⟨rfl, rfl, ?_, ?_⟩ <;> decide

/-- C9 amended: after removing the destination, a successful fetch
copies from clone_dir slash sub_directory slash dot; when
sub_directory is the empty string the source resolves to the clone
root as the claim states, but when sub_directory is unset (None) the
Python f-string renders the source as the literal None subdirectory of
the clone, which does not resolve to the repository root. -/
theorem C9_fetch_copy_source (c : Config) (s0 : Status) (repo parts : String)
    (hrepo : c.github_repo = some repo) (hrt : repoTail repo = some parts) :
    (c.sub_directory = some "" →
      (finalSt (fetch_collector envAllOk c) s0).effs =
        [Eff.rmRf clone_dir,
         Eff.gitClone ("https://oauth2:" ++ pyStr c.github_token ++ "@" ++ parts)
           (pyStr c.release_tag) clone_dir,
         Eff.rmRf dest_dir, Eff.makeDirs dest_dir,
         Eff.copyR (clone_dir ++ "//.") dest_dir] ∧
      normPath (clone_dir ++ "//.") = normPath clone_dir ∧
      escaped (fetch_collector envAllOk c) s0 = none) ∧
    (c.sub_directory = none →
      (finalSt (fetch_collector envAllOk c) s0).effs =
        [Eff.rmRf clone_dir,
         Eff.gitClone ("https://oauth2:" ++ pyStr c.github_token ++ "@" ++ parts)
           (pyStr c.release_tag) clone_dir,
         Eff.rmRf dest_dir, Eff.makeDirs dest_dir,
         Eff.copyR (clone_dir ++ "/None/.") dest_dir] ∧
      normPath (clone_dir ++ "/None/.") ≠ normPath clone_dir) := by
  constructor
  · intro hsd
    refine ⟨?_, ?_, ?_⟩
    · simp [finalSt, runM, fetch_collector, hrepo, hrt, hsd, pyFalsy, pyStr,
        seq, emit, mok, mthrow, actC, initSt, envAllOk, clone_dir, dest_dir]
    · decide
    · simp [escaped, runM, fetch_collector, hrepo, hrt, hsd, pyFalsy, pyStr,
        seq, emit, mok, mthrow, actC, initSt, envAllOk, clone_dir, dest_dir]
  · intro hsd
    refine ⟨?_, ?_⟩
    · simp [finalSt, runM, fetch_collector, hrepo, hrt, hsd, pyFalsy, pyStr,
        seq, emit, mok, mthrow, actC, initSt, envAllOk, clone_dir, dest_dir]
    · decide

/-- C9 amended witness: the empty sub_directory scenario at the
concrete specification snapshot. -/
theorem C9_witness :
    cGood.sub_directory = some "" ∧
    (finalSt (fetch_collector envAllOk cGood) (Status.active "prior")).effs =
      [Eff.rmRf clone_dir,
       Eff.gitClone "https://oauth2:t@github.com/org/repo" "v1.2.0" clone_dir,
       Eff.rmRf dest_dir, Eff.makeDirs dest_dir,
       Eff.copyR (clone_dir ++ "//.") dest_dir] ∧
    normPath (clone_dir ++ "//.") = normPath clone_dir := by
  have h := (C9_fetch_copy_source cGood (Status.active "prior")
    "https://github.com/org/repo" "github.com/org/repo" rfl rfl).1 rfl
  exact ⟨rfl, h.1, h.2.1⟩

/-- C10 counterexample: a snapshot with frequency -1 is accepted by
both validators, although -1 is not a positive integer: validation
only tests Python truthiness (non-zero), not positivity. -/
theorem C10_counterexample :
    validate_config cNeg = Except.ok () ∧
    ConfigValidator.validate_config cNeg = Except.ok () ∧
    cNeg.frequency < 0 := by
  exact ⟨rfl, rfl, by decide⟩

/-- C10 amended: every snapshot accepted by either validator has every
field except sub_directory non-empty, a non-zero (but not necessarily
positive) frequency, a haproxy_url starting with http, and a
github_repo starting with https. -/
theorem C10_validated_invariant (c : Config) :
    (validate_config c = Except.ok () →
      c.frequency ≠ 0 ∧ pyFalsy c.collector_name = false ∧ pyFalsy c.haproxy_name = false ∧
      pyFalsy c.haproxy_url = false ∧ pyFalsy c.haproxy_username = false ∧
      pyFalsy c.haproxy_password = false ∧ pyFalsy c.github_repo = false ∧
      pyFalsy c.github_token = false ∧ pyFalsy c.release_tag = false ∧
      pyStartsWith (c.haproxy_url.getD "") "http" = true ∧
      pyStartsWith (c.github_repo.getD "") "https://" = true) ∧
    (ConfigValidator.validate_config c = Except.ok () →
      c.frequency ≠ 0 ∧ pyFalsy c.collector_name = false ∧ pyFalsy c.haproxy_name = false ∧
      pyFalsy c.haproxy_url = false ∧ pyFalsy c.haproxy_username = false ∧
      pyFalsy c.haproxy_password = false ∧ pyFalsy c.github_repo = false ∧
      pyFalsy c.github_token = false ∧ pyFalsy c.release_tag = false ∧
      pyStartsWith (c.haproxy_url.getD "") "http" = true ∧
      pyStartsWith (c.github_repo.getD "") "https://" = true) := by
  constructor
  · intro h
    obtain ⟨a1, a2, a3, a4, a5, a6, a7, a8, a9, a10, a11⟩ := (validate_config_ok_iff c).mp h
    exact ⟨a1, a2, a3, a4, a6, a7, a8, a10, a11, a5, a9⟩
  · intro h
    obtain ⟨a1, a2, a3, a4, a5, a6, a7, a8, a9, a10, a11⟩ := (configValidator_ok_iff c).mp h
    exact ⟨a1, a2, a3, a4, a6, a7, a8, a10, a11, a5, a9⟩

/-- C10 amended witness: the invariant at the concrete specification
snapshot. -/
theorem C10_witness :
    validate_config cGood = Except.ok () ∧
    cGood.frequency ≠ 0 ∧
    pyStartsWith (cGood.haproxy_url.getD "") "http" = true ∧
    pyStartsWith (cGood.github_repo.getD "") "https://" = true := by
  have h := (C10_validated_invariant cGood).1 rfl
  exact ⟨rfl, h.1, h.2.2.2.2.2.2.2.2.2.1, h.2.2.2.2.2.2.2.2.2.2⟩
